import Mathlib

/-!
Shallow embedding of the surgeon-site backend (src/main.py, src/schemas.py).

Numbers are embedded as rationals (Python floats / ints), HTTP error
responses as an explicit error structure, and store documents as
association lists from field names to JSON-like values.  The document
store gateway (repository file `database.py`, which is not under `src/`)
is modelled from the spec, see `Store` below.
-/

namespace SurgeonBackend

/-- A JSON-like value stored in a document field (Python `None` is `vNull`). -/
inductive Value where
  | vStr : String → Value
  | vInt : Int → Value
  | vRat : ℚ → Value
  | vNull : Value
deriving DecidableEq, Repr

/-- A store document: an association list of named fields (a Mongo document). -/
structure Doc where
  fields : List (String × Value)
deriving DecidableEq, Repr

/-- Python `dict.get(k)`: the value at key `k`, or absent. -/
def Doc.get (d : Doc) (k : String) : Option Value :=
  d.fields.lookup k

/-- Python `dict.get(k, default)`. -/
def Doc.getD (d : Doc) (k : String) (v : Value) : Value :=
  (d.get k).getD v

/-- Modelled from the spec: the Document Store Gateway lives in the
repository file `database.py`, which is not under `src/`; only `db`,
`create_document` and `get_documents` are imported by `main.py`.  Per the
spec (§4.2) the gateway offers exactly two operations: insert one
validated record into a named collection returning a generated
identifier, and fetch up to a maximum count of records from a named
collection in the store's natural insertion order; either can fail with a
store error.  `contents` maps each collection name to its documents in
insertion order, `fetchErr col` is `some msg` when a fetch from `col`
raises, `insertErr` is `some msg` when an insert raises, `colNames` is
the result of listing collection names, and `nextId` is the identifier
the next successful insert generates. -/
structure Store where
  contents : String → List Doc
  fetchErr : String → Option String
  insertErr : Option String
  colNames : Except String (List String)
  nextId : String

/-- Modelled from the spec: `get_documents(collection, limit=...)` —
fetch up to `limit` documents (all of them when no limit is passed) in
insertion order, or raise a store error. -/
def Store.getDocuments (s : Store) (col : String) (limit : Option Nat) :
    Except String (List Doc) :=
  match s.fetchErr col with
  | some e => .error e
  | none =>
    match limit with
    | none => .ok (s.contents col)
    | some n => .ok ((s.contents col).take n)

/-- Modelled from the spec: `create_document(collection, payload)` —
persist the validated record into the named collection and return a
generated identifier, or raise a store error.  Returns the identifier
together with the updated store. -/
def Store.createDocument (s : Store) (col : String) (d : Doc) :
    Except String (String × Store) :=
  match s.insertErr with
  | some e => .error e
  | none =>
    .ok (s.nextId,
      { s with contents := fun c => if c = col then s.contents c ++ [d] else s.contents c })

/-- An HTTP error response (FastAPI `HTTPException` / validation rejection). -/
structure HTTPError where
  status : Nat
  detail : String
deriving DecidableEq, Repr

/-! ### Surgeries endpoint (`GET /api/surgeries`, main.py `list_surgeries`) -/

/-- A surgery document projected to `{name, type, description}`
(`i.get(k)` yields `None` when the field is absent). -/
structure SurgeryOut where
  name : Option Value
  type : Option Value
  description : Option Value
deriving DecidableEq, Repr

/-- The per-document projection in `list_surgeries`. -/
def projSurgery (d : Doc) : SurgeryOut :=
  ⟨d.get "name", d.get "type", d.get "description"⟩

/-- The curated default list returned when the store is absent, errors,
or yields no documents (main.py lines 51–58). -/
def defaultSurgeries : List SurgeryOut :=
  [⟨some (.vStr "Лапароскопическое рукавное гастрошунтирование"), some (.vStr "bariatric"),
    some (.vStr "Снижение веса за счёт уменьшения объёма желудка")⟩,
   ⟨some (.vStr "Гастрошунтирование по Ру"), some (.vStr "bariatric"),
    some (.vStr "Комбинированная методика для стойкого снижения массы тела")⟩,
   ⟨some (.vStr "Установка внутрижелудочного баллона"), some (.vStr "bariatric"),
    some (.vStr "Временная методика для коррекции веса")⟩,
   ⟨some (.vStr "Холецистэктомия (удаление желчного пузыря)"), some (.vStr "general"),
    some (.vStr "Лапароскопическое удаление при желчнокаменной болезни")⟩,
   ⟨some (.vStr "Грыжесечение (паховые, пупочные, вентральные)"), some (.vStr "general"),
    some (.vStr "Современные сетчатые импланты и надёжная фиксация")⟩,
   ⟨some (.vStr "Аппендэктомия"), some (.vStr "general"),
    some (.vStr "Малоинвазивное удаление аппендикса")⟩]

/-- The handler body of `GET /api/surgeries` (main.py lines 27–58):
fetch collection "surgery" and project; on a missing store, a store
error, or an empty result, fall back to the curated defaults. -/
def list_surgeries_handler (db : Option Store) : List SurgeryOut :=
  match db with
  | none => defaultSurgeries
  | some s =>
    match s.getDocuments "surgery" none with
    | .error _ => defaultSurgeries
    | .ok docs =>
      let items := docs.map projSurgery
      if items.isEmpty then defaultSurgeries else items

/-- Whether a projected field satisfies a required `str` field of the
`Surgery` response model: present and a string (`None` or a missing key
fails pydantic validation). -/
def validRequiredStr : Option Value → Bool
  | some (.vStr _) => true
  | _ => false

/-- Whether a projected field satisfies an `Optional[str] = None`
field: absent, null, or a string. -/
def validOptionalStr : Option Value → Bool
  | none => true
  | some .vNull => true
  | some (.vStr _) => true
  | _ => false

/-- FastAPI validation of one returned item against the `Surgery`
response model (schemas.py: `name` and `type` required strings,
`description` optional). -/
def validSurgery (o : SurgeryOut) : Bool :=
  validRequiredStr o.name && validRequiredStr o.type && validOptionalStr o.description

/-- `GET /api/surgeries` as served: the route declares
`response_model=List[Surgery]` (main.py line 26), so after the handler
returns — outside its `try` — FastAPI validates every item against the
`Surgery` model; an item with a missing or null required field surfaces
as a 500 response-validation error. -/
def list_surgeries (db : Option Store) : Except HTTPError (List SurgeryOut) :=
  let body := list_surgeries_handler db
  if body.all validSurgery then .ok body
  else .error ⟨500, "Internal Server Error"⟩

/-! ### Testimonials (`GET`/`POST /api/testimonials`) -/

/-- A testimonial document projected to
`{name, procedure, rating (default 5), text, city}`. -/
structure TestimonialOut where
  name : Option Value
  procedure : Option Value
  rating : Value
  text : Option Value
  city : Option Value
deriving DecidableEq, Repr

/-- The per-document projection in `get_testimonials`:
`i.get("rating", 5)` defaults a missing rating to 5. -/
def projTestimonial (d : Doc) : TestimonialOut :=
  ⟨d.get "name", d.get "procedure", d.getD "rating" (.vInt 5), d.get "text", d.get "city"⟩

/-- `GET /api/testimonials?limit=` (query parameter defaults to 12):
empty list when the store is absent; otherwise fetch up to `limit`
documents and project, surfacing a 500 carrying the store error text on
a failing fetch. -/
def get_testimonials (db : Option Store) (limitQ : Option Nat) :
    Except HTTPError (List TestimonialOut) :=
  let limit := limitQ.getD 12
  match db with
  | none => .ok []
  | some s =>
    match s.getDocuments "testimonial" (some limit) with
    | .error e => .error ⟨500, e⟩
    | .ok docs => .ok (docs.map projTestimonial)

/-- The raw JSON body of `POST /api/testimonials`, before pydantic
validation (each field present or absent). -/
structure TestimonialIn where
  name : Option String
  procedure : Option String
  rating : Option Int
  text : Option String
  city : Option String
deriving DecidableEq, Repr

/-- A validated `Testimonial` (schemas.py): `name` and `text` required,
`rating` an integer in 1–5 defaulting to 5, `procedure` and `city`
optional. -/
structure Testimonial where
  name : String
  procedure : Option String
  rating : Int
  text : String
  city : Option String
deriving DecidableEq, Repr

/-- Pydantic validation of the request body against the `Testimonial`
schema, performed by FastAPI before the handler body runs: missing
required fields or a rating outside 1–5 are rejected with a 422
validation error. -/
def validateTestimonial (p : TestimonialIn) : Except HTTPError Testimonial :=
  match p.name, p.text with
  | some n, some t =>
    let r := p.rating.getD 5
    if 1 ≤ r ∧ r ≤ 5 then .ok ⟨n, p.procedure, r, t, p.city⟩
    else .error ⟨422, "Input should be in the range 1 to 5"⟩
  | _, _ => .error ⟨422, "Field required"⟩

/-- Python `None` becomes a JSON/BSON null field value. -/
def optStr : Option String → Value
  | none => .vNull
  | some s => .vStr s

/-- The document a validated testimonial payload is persisted as
(pydantic dumps every declared field, optional ones as null). -/
def Testimonial.toDoc (t : Testimonial) : Doc :=
  ⟨[("name", .vStr t.name), ("procedure", optStr t.procedure),
    ("rating", .vInt t.rating), ("text", .vStr t.text), ("city", optStr t.city)]⟩

/-- The `{id, ok}` body returned by a successful create. -/
structure CreateResp where
  id : String
  ok : Bool
deriving DecidableEq, Repr

/-- `POST /api/testimonials`: validation runs first; with no store the
handler raises a 500 "Database not available"; otherwise the validated
payload is inserted into collection "testimonial" and `{id, ok: true}`
returned, a failing insert surfacing as a 500 carrying the store error
text.  The second component is the store state after the request. -/
def create_testimonial (db : Option Store) (raw : TestimonialIn) :
    Except HTTPError CreateResp × Option Store :=
  match validateTestimonial raw with
  | .error e => (.error e, db)
  | .ok payload =>
    match db with
    | none => (.error ⟨500, "Database not available"⟩, db)
    | some s =>
      match s.createDocument "testimonial" payload.toDoc with
      | .error e => (.error ⟨500, e⟩, db)
      | .ok (i, s2) => (.ok ⟨i, true⟩, some s2)

/-! ### Before/after cases (`GET /api/before-after`) -/

/-- A before/after document projected to its seven fields. -/
structure BeforeAfterOut where
  patient_code : Option Value
  procedure : Option Value
  weight_before : Option Value
  weight_after : Option Value
  description : Option Value
  image_before_url : Option Value
  image_after_url : Option Value
deriving DecidableEq, Repr

/-- The per-document projection in `get_before_after`. -/
def projBeforeAfter (d : Doc) : BeforeAfterOut :=
  ⟨d.get "patient_code", d.get "procedure", d.get "weight_before", d.get "weight_after",
   d.get "description", d.get "image_before_url", d.get "image_after_url"⟩

/-- `GET /api/before-after?limit=` (query parameter defaults to 12):
same pattern as `get_testimonials`, reading collection "beforeafter". -/
def get_before_after (db : Option Store) (limitQ : Option Nat) :
    Except HTTPError (List BeforeAfterOut) :=
  let limit := limitQ.getD 12
  match db with
  | none => .ok []
  | some s =>
    match s.getDocuments "beforeafter" (some limit) with
    | .error e => .error ⟨500, e⟩
    | .ok docs => .ok (docs.map projBeforeAfter)

/-! ### BMI endpoint (`POST /api/bmi`) -/

/-- Round to one decimal place (Python `round(x, 1)`). -/
def round1 (q : ℚ) : ℚ := (round (10 * q) : ℤ) / 10

/-- The `{bmi, category}` response body. -/
structure BMIResult where
  bmi : ℚ
  category : String
deriving DecidableEq, Repr

/-- main.py `_bmi_category`: the six-band threshold classifier. -/
def bmi_category (bmi : ℚ) : String :=
  if bmi < 18.5 then "Недостаточная масса"
  else if bmi < 25 then "Норма"
  else if bmi < 30 then "Избыточная масса"
  else if bmi < 35 then "Ожирение I степени"
  else if bmi < 40 then "Ожирение II степени"
  else "Ожирение III степени"

/-- main.py `bmi_calc`: convert height to meters, reject non-positive
height with a 400, else return the rounded BMI and its category. -/
def bmi_calc (height_cm weight_kg : ℚ) : Except HTTPError BMIResult :=
  let h_m := height_cm / 100
  if h_m ≤ 0 then .error ⟨400, "Height must be greater than 0"⟩
  else
    let bmi := weight_kg / (h_m * h_m)
    .ok ⟨round1 bmi, bmi_category bmi⟩

/-! ### Contact endpoint (`POST /api/contact`) -/

/-- A validated `ContactMessage` (schemas.py): `name` and `message`
required, `email` (syntactically valid when present) and `phone`
optional. -/
structure ContactMessage where
  name : String
  email : Option String
  phone : Option String
  message : String
deriving DecidableEq, Repr

/-- The document a validated contact payload is persisted as. -/
def ContactMessage.toDoc (m : ContactMessage) : Doc :=
  ⟨[("name", .vStr m.name), ("email", optStr m.email),
    ("phone", optStr m.phone), ("message", optStr (some m.message))]⟩

/-- The `{ok, stored, id?}` body of the contact endpoint. -/
structure ContactResp where
  ok : Bool
  stored : Bool
  id : Option String
deriving DecidableEq, Repr

/-- `POST /api/contact`: with no store, accept and report
`{ok: true, stored: false}` (never an error); otherwise insert into
collection "contactmessage" and return `{ok: true, id, stored: true}`,
a failing insert surfacing as a 500 carrying the store error text.
The second component is the store state after the request. -/
def send_contact (db : Option Store) (payload : ContactMessage) :
    Except HTTPError ContactResp × Option Store :=
  match db with
  | none => (.ok ⟨true, false, none⟩, db)
  | some s =>
    match s.createDocument "contactmessage" payload.toDoc with
    | .error e => (.error ⟨500, e⟩, db)
    | .ok (i, s2) => (.ok ⟨true, true, some i⟩, some s2)

/-! ### Diagnostic probe (`GET /test`) -/

/-- The environment variables the probe reads (a variable can be unset,
or set — possibly to the empty string, which Python truthiness treats
as unset). -/
structure Env where
  database_url : Option String
  database_name : Option String
deriving DecidableEq, Repr

/-- Python `s[:50]`: the first 50 characters. -/
def truncate50 (s : String) : String := String.mk (s.toList.take 50)

/-- The structured status object returned by `GET /test`. -/
structure TestResponse where
  backend : String
  database : String
  database_url : Option String
  database_name : Option String
  connection_status : String
  collections : List String
deriving DecidableEq, Repr

/-- Python truthiness of `os.getenv(k)`: set and non-empty. -/
def envTruthy : Option String → Bool
  | none => false
  | some s => !(s = "")

/-- main.py `test_database`: build the base status object; when a store
handle exists, report availability and the environment variables, then
try listing collection names — keeping at most 10 and, if the listing
raises, rendering a degraded status string carrying the first 50
characters of the error text.  Every internal failure is caught, so the
result is always a plain `TestResponse`. -/
def test_database (env : Env) (db : Option Store) : TestResponse :=
  let base : TestResponse :=
    ⟨"✅ Running", "❌ Not Available", none, none, "Not Connected", []⟩
  match db with
  | none => { base with database := "⚠️  Available but not initialized" }
  | some s =>
    let r1 : TestResponse :=
      { base with
        database := "✅ Available",
        database_url := some (if envTruthy env.database_url then "✅ Set" else "❌ Not Set"),
        database_name := some (if envTruthy env.database_name
                               then env.database_name.getD "" else "❌ Not Set"),
        connection_status := "Connected" }
    match s.colNames with
    | .ok cols =>
      { r1 with collections := cols.take 10, database := "✅ Connected & Working" }
    | .error e =>
      { r1 with database := "⚠️  Connected but Error: " ++ truncate50 e }

/-- `GET /`: the constant acknowledgement payload. -/
def read_root : String := "Surgeon site backend is running"

/-- The lowercased (no separators) form of an entity class name. -/
def lowerName (s : String) : String := String.mk (s.data.map Char.toLower)

/-! ### Sample states used by the witness theorems -/

/-- A working store with no documents and no failures. -/
def storePlain : Store := Store.mk (fun _ => []) (fun _ => none) none (.ok []) "id1"

/-- A store whose every fetch raises "boom". -/
def storeFetchBoom : Store := Store.mk (fun _ => []) (fun _ => some "boom") none (.ok []) "id2"

/-- A store holding one testimonial document. -/
def storeOneDoc : Store :=
  Store.mk (fun c => if c = "testimonial" then [Doc.mk [("name", .vStr "A")]] else [])
    (fun _ => none) none (.ok []) "id3"

/-- A connected store whose collection-name listing raises "explode". -/
def storeListBoom : Store := Store.mk (fun _ => []) (fun _ => none) none (.error "explode") "id4"

/-- A working store whose "surgery" collection holds one document that
lacks the required `name` field. -/
def storeBadSurgery : Store :=
  Store.mk (fun c => if c = "surgery" then [Doc.mk [("type", .vStr "bariatric")]] else [])
    (fun _ => none) none (.ok []) "id5"

/-- A shape-valid testimonial request body. -/
def rawAnn : TestimonialIn := TestimonialIn.mk (some "Ann") none none (some "Great") none

/-- The validated form of `rawAnn` (rating defaulted to 5). -/
def pAnn : Testimonial := Testimonial.mk "Ann" none 5 "Great" none

/-- A testimonial request body with the out-of-range rating 6. -/
def rawRating6 : TestimonialIn :=
  TestimonialIn.mk (some "Ann") none (some 6) (some "Great") none

/-- A valid contact-message payload. -/
def msgAnn : ContactMessage := ContactMessage.mk "Ann" none none "hello"

/-! ## Theorems -/

/-- C1: the BMI endpoint rejects with a 400 client input error exactly
when `height_cm ≤ 0`, regardless of `weight_kg`; for every positive
height it returns `bmi = weight_kg / (height_cm/100)^2` rounded to one
decimal place. -/
theorem bmi_endpoint_spec (h w : ℚ) :
    ((∃ msg, bmi_calc h w = .error ⟨400, msg⟩) ↔ h ≤ 0) ∧
    (0 < h → ∃ r, bmi_calc h w = .ok r ∧ r.bmi = round1 (w / (h / 100) ^ 2)) := by
  have hiff : h / 100 ≤ 0 ↔ h ≤ 0 := by
    rw [div_le_iff₀ (by norm_num : (0:ℚ) < 100)]; norm_num
  by_cases hc : h ≤ 0
  · have he : bmi_calc h w = .error ⟨400, "Height must be greater than 0"⟩ := by
      simp only [bmi_calc]
      rw [if_pos (hiff.mpr hc)]
    exact ⟨⟨fun _ => hc, fun _ => ⟨_, he⟩⟩, fun hpos => absurd hc (not_le.mpr hpos)⟩
  · push_neg at hc
    have hok : bmi_calc h w =
        .ok ⟨round1 (w / (h / 100 * (h / 100))), bmi_category (w / (h / 100 * (h / 100)))⟩ := by
      simp only [bmi_calc]
      rw [if_neg (by rw [hiff]; exact not_le.mpr hc)]
    refine ⟨⟨?_, fun hle => absurd hle (not_le.mpr hc)⟩, fun _ => ⟨_, hok, ?_⟩⟩
    · rintro ⟨msg, hmsg⟩
      rw [hok] at hmsg
      exact absurd hmsg (by simp)
    · rw [pow_two]

/-- Witness for C1: at height 170 cm and weight 70 kg the endpoint
returns the rounded BMI. -/
theorem bmi_endpoint_spec_witness :
    (0:ℚ) < 170 ∧ ∃ r, bmi_calc 170 70 = .ok r ∧ r.bmi = round1 (70 / ((170:ℚ) / 100) ^ 2) :=
  ⟨by norm_num, (bmi_endpoint_spec 170 70).2 (by norm_num)⟩

/-- C2: the category is always one of the six fixed Russian labels,
chosen by closed-below/open-above thresholds at 18.5, 25, 30, 35, 40;
in particular BMI exactly 25 is classified overweight, not normal. -/
theorem bmi_category_bands (b : ℚ) :
    bmi_category b ∈ (["Недостаточная масса", "Норма", "Избыточная масса",
        "Ожирение I степени", "Ожирение II степени", "Ожирение III степени"] : List String) ∧
    (b < 18.5 → bmi_category b = "Недостаточная масса") ∧
    (18.5 ≤ b → b < 25 → bmi_category b = "Норма") ∧
    (25 ≤ b → b < 30 → bmi_category b = "Избыточная масса") ∧
    (30 ≤ b → b < 35 → bmi_category b = "Ожирение I степени") ∧
    (35 ≤ b → b < 40 → bmi_category b = "Ожирение II степени") ∧
    (40 ≤ b → bmi_category b = "Ожирение III степени") ∧
    bmi_category 25 = "Избыточная масса" := by
  refine ⟨?_, ?_, ?_, ?_, ?_, ?_, ?_, by norm_num [bmi_category]⟩ <;>
    intros <;> unfold bmi_category <;> split_ifs <;>
    first
      | rfl
      | (exfalso; linarith)
      | simp

/-- Witness for C2: BMI 27 falls in the overweight band. -/
theorem bmi_category_bands_witness :
    (25:ℚ) ≤ 27 ∧ (27:ℚ) < 30 ∧ bmi_category 27 = "Избыточная масса" :=
  ⟨by norm_num, by norm_num, (bmi_category_bands 27).2.2.2.1 (by norm_num) (by norm_num)⟩

/-- C10: the BMI endpoint never validates `weight_kg`: any weight,
including zero and negative values, succeeds when the height is
positive, and a negative weight is classified underweight. -/
theorem bmi_weight_unchecked (h w : ℚ) (hp : 0 < h) :
    ∃ r, bmi_calc h w = .ok r ∧ (w < 0 → r.category = "Недостаточная масса") := by
  have hpos : 0 < h / 100 := by positivity
  have hok : bmi_calc h w =
      .ok ⟨round1 (w / (h / 100 * (h / 100))), bmi_category (w / (h / 100 * (h / 100)))⟩ := by
    simp only [bmi_calc]
    rw [if_neg (not_le.mpr hpos)]
  refine ⟨_, hok, fun hw => ?_⟩
  have hb : w / (h / 100 * (h / 100)) < 0 := div_neg_of_neg_of_pos hw (mul_pos hpos hpos)
  unfold bmi_category
  rw [if_pos (lt_trans hb (by norm_num))]

/-- Witness for C10: height 170 cm with weight −10 kg still succeeds. -/
theorem bmi_weight_unchecked_witness :
    (0:ℚ) < 170 ∧
    ∃ r, bmi_calc 170 (-10) = .ok r ∧ ((-10:ℚ) < 0 → r.category = "Недостаточная масса") :=
  ⟨by norm_num, bmi_weight_unchecked 170 (-10) (by norm_num)⟩

/-- Counterexample for C3: the claim that the list-surgeries operation
surfaces no error for every store state is false of the program.  A
working store whose nonempty "surgery" collection holds a document
lacking the required `name` field makes the route's
`response_model=List[Surgery]` validation fail, surfacing a 500 —
instead of returning the projected documents error-free. -/
theorem list_surgeries_claim_counterexample :
    storeBadSurgery.fetchErr "surgery" = none ∧
    storeBadSurgery.contents "surgery" ≠ [] ∧
    list_surgeries (some storeBadSurgery) = .error ⟨500, "Internal Server Error"⟩ :=
  ⟨rfl, by decide, rfl⟩

/-- C3 (amended): the degraded paths — store absent, raising fetch, or
empty result — return exactly the fixed 6-item default list (3
bariatric then 3 general, in fixed order) with no error; a nonempty
fetch returns the fetched documents projected to
name/type/description when every projected item passes the `Surgery`
response-model validation, and otherwise surfaces a 500
response-validation error. -/
theorem list_surgeries_fallback (s : Store) (e : String) :
    list_surgeries none = .ok defaultSurgeries ∧
    (s.fetchErr "surgery" = some e → list_surgeries (some s) = .ok defaultSurgeries) ∧
    (s.fetchErr "surgery" = none → s.contents "surgery" = [] →
      list_surgeries (some s) = .ok defaultSurgeries) ∧
    (s.fetchErr "surgery" = none → s.contents "surgery" ≠ [] →
      (((s.contents "surgery").map projSurgery).all validSurgery = true →
        list_surgeries (some s) = .ok ((s.contents "surgery").map projSurgery)) ∧
      (((s.contents "surgery").map projSurgery).all validSurgery = false →
        list_surgeries (some s) = .error ⟨500, "Internal Server Error"⟩)) ∧
    defaultSurgeries.length = 6 ∧
    defaultSurgeries.map SurgeryOut.type =
      [some (.vStr "bariatric"), some (.vStr "bariatric"), some (.vStr "bariatric"),
       some (.vStr "general"), some (.vStr "general"), some (.vStr "general")] := by
  have hdef : defaultSurgeries.all validSurgery = true := by decide
  have hbody : ∀ db, list_surgeries_handler db = defaultSurgeries →
      list_surgeries db = .ok defaultSurgeries := by
    intro db hb
    simp only [list_surgeries, hb, hdef, if_pos]
  refine ⟨hbody none rfl, ?_, ?_, ?_, rfl, rfl⟩
  · intro hf
    refine hbody (some s) ?_
    simp only [list_surgeries_handler, Store.getDocuments, hf]
  · intro hf hc
    refine hbody (some s) ?_
    simp only [list_surgeries_handler, Store.getDocuments, hf, hc]
    rfl
  · intro hf hc
    have hb : list_surgeries_handler (some s) = (s.contents "surgery").map projSurgery := by
      simp only [list_surgeries_handler, Store.getDocuments, hf]
      rw [if_neg]
      simp only [List.isEmpty_eq_true, List.map_eq_nil_iff]
      exact hc
    constructor
    · intro hval
      simp only [list_surgeries, hb, hval, if_pos]
    · intro hval
      simp only [list_surgeries, hb, hval]
      rfl

/-- Witness for C3: a store whose fetch raises still yields the default
list without error. -/
theorem list_surgeries_fallback_witness :
    storeFetchBoom.fetchErr "surgery" = some "boom" ∧
    list_surgeries (some storeFetchBoom) = .ok defaultSurgeries :=
  ⟨rfl, (list_surgeries_fallback storeFetchBoom "boom").2.1 rfl⟩

/-- C4: creating a testimonial rejects an out-of-range rating with a 4xx
before touching the store and regardless of store availability; a
shape-valid payload is rejected with a 500 when the store is absent; and
otherwise the document is inserted into "testimonial" and
`{id, ok: true}` returned. -/
theorem create_testimonial_gates (db : Option Store) (raw : TestimonialIn)
    (s : Store) (p : Testimonial) (r : Int) (e : String) :
    (raw.rating = some r → ¬(1 ≤ r ∧ r ≤ 5) →
      ∃ er, create_testimonial db raw = (.error er, db) ∧
        400 ≤ er.status ∧ er.status < 500) ∧
    (validateTestimonial raw = .ok p →
      create_testimonial none raw = (.error ⟨500, "Database not available"⟩, none)) ∧
    (validateTestimonial raw = .ok p → s.insertErr = none →
      ∃ s2, create_testimonial (some s) raw = (.ok ⟨s.nextId, true⟩, some s2) ∧
        s2.contents "testimonial" = s.contents "testimonial" ++ [p.toDoc]) ∧
    (validateTestimonial raw = .ok p → s.insertErr = some e →
      create_testimonial (some s) raw = (.error ⟨500, e⟩, some s)) := by
  refine ⟨?_, ?_, ?_, ?_⟩
  · intro hr hbad
    have hv : ∃ er, validateTestimonial raw = .error er ∧ er.status = 422 := by
      unfold validateTestimonial
      rcases hn : raw.name with _ | n
      · exact ⟨_, rfl, rfl⟩
      · rcases ht : raw.text with _ | t
        · exact ⟨_, rfl, rfl⟩
        · rw [hr]
          simp only [Option.getD]
          rw [if_neg hbad]
          exact ⟨_, rfl, rfl⟩
    obtain ⟨er, hv, hst⟩ := hv
    refine ⟨er, ?_, by omega, by omega⟩
    simp only [create_testimonial, hv]
  · intro hval
    simp only [create_testimonial, hval]
  · intro hval hins
    simp only [create_testimonial, Store.createDocument, hval, hins]
    exact ⟨_, rfl, by simp⟩
  · intro hval hins
    simp only [create_testimonial, Store.createDocument, hval, hins]

/-- Witness for C4: a rating of 6 is rejected with a 4xx even with no
store configured. -/
theorem create_testimonial_gates_witness :
    rawRating6.rating = some 6 ∧ ¬(1 ≤ (6:Int) ∧ (6:Int) ≤ 5) ∧
    ∃ er, create_testimonial none rawRating6 = (.error er, none) ∧
      400 ≤ er.status ∧ er.status < 500 :=
  ⟨rfl, by decide,
   (create_testimonial_gates none rawRating6 storePlain pAnn 6 "e").1 rfl (by decide)⟩

/-- C5: the testimonial and before/after list endpoints (integer limit
defaulting to 12) return an empty list without error when the store is
absent, at most `limit` projected documents when it is present, a
missing rating projecting to 5, and a 500 carrying the underlying
message when the fetch raises. -/
theorem list_endpoints_degrade (s : Store) (limitQ : Option Nat) (limit : Nat)
    (e : String) (d : Doc) :
    get_testimonials none limitQ = .ok [] ∧
    get_before_after none limitQ = .ok [] ∧
    get_testimonials (some s) none = get_testimonials (some s) (some 12) ∧
    get_before_after (some s) none = get_before_after (some s) (some 12) ∧
    (s.fetchErr "testimonial" = none →
      get_testimonials (some s) (some limit) =
        .ok (((s.contents "testimonial").take limit).map projTestimonial) ∧
      ∀ l, get_testimonials (some s) (some limit) = .ok l → l.length ≤ limit) ∧
    (s.fetchErr "testimonial" = some e →
      get_testimonials (some s) (some limit) = .error ⟨500, e⟩) ∧
    (s.fetchErr "beforeafter" = none →
      get_before_after (some s) (some limit) =
        .ok (((s.contents "beforeafter").take limit).map projBeforeAfter)) ∧
    (s.fetchErr "beforeafter" = some e →
      get_before_after (some s) (some limit) = .error ⟨500, e⟩) ∧
    (d.get "rating" = none → (projTestimonial d).rating = .vInt 5) := by
  refine ⟨rfl, rfl, rfl, rfl, ?_, ?_, ?_, ?_, ?_⟩
  · intro hf
    have hok : get_testimonials (some s) (some limit) =
        .ok (((s.contents "testimonial").take limit).map projTestimonial) := by
      simp only [get_testimonials, Store.getDocuments, hf, Option.getD]
    refine ⟨hok, fun l hl => ?_⟩
    rw [hok] at hl
    obtain rfl : ((s.contents "testimonial").take limit).map projTestimonial = l :=
      by injection hl
    rw [List.length_map]
    exact List.length_take_le limit _
  · intro hf
    simp only [get_testimonials, Store.getDocuments, hf, Option.getD]
  · intro hf
    simp only [get_before_after, Store.getDocuments, hf, Option.getD]
  · intro hf
    simp only [get_before_after, Store.getDocuments, hf, Option.getD]
  · intro hr
    simp only [projTestimonial, Doc.getD, hr, Option.getD]

/-- Witness for C5: a working one-document store lists its projected
document under the default limit. -/
theorem list_endpoints_degrade_witness :
    storeOneDoc.fetchErr "testimonial" = none ∧
    get_testimonials (some storeOneDoc) (some 12) =
      .ok (((storeOneDoc.contents "testimonial").take 12).map projTestimonial) :=
  ⟨rfl, ((list_endpoints_degrade storeOneDoc none 12 "e" (Doc.mk [])).2.2.2.2.1 rfl).1⟩

/-- C6: a valid contact message with no store succeeds with
`{ok: true, stored: false}` (never a 5xx); with a working store the
document is inserted into "contactmessage" and
`{ok: true, id, stored: true}` returned; a raising insert surfaces a
500 carrying the underlying message. -/
theorem send_contact_tolerant (s : Store) (m : ContactMessage) (e : String) :
    send_contact none m = (.ok ⟨true, false, none⟩, none) ∧
    (s.insertErr = none →
      ∃ s2, send_contact (some s) m = (.ok ⟨true, true, some s.nextId⟩, some s2) ∧
        s2.contents "contactmessage" = s.contents "contactmessage" ++ [m.toDoc]) ∧
    (s.insertErr = some e →
      send_contact (some s) m = (.error ⟨500, e⟩, some s)) := by
  refine ⟨rfl, ?_, ?_⟩
  · intro hins
    simp only [send_contact, Store.createDocument, hins]
    exact ⟨_, rfl, by simp⟩
  · intro hins
    simp only [send_contact, Store.createDocument, hins]

/-- Witness for C6: a working store stores the contact message and
reports its identifier. -/
theorem send_contact_tolerant_witness :
    storePlain.insertErr = none ∧
    ∃ s2, send_contact (some storePlain) msgAnn =
        (.ok ⟨true, true, some storePlain.nextId⟩, some s2) ∧
      s2.contents "contactmessage" = storePlain.contents "contactmessage" ++ [msgAnn.toDoc] :=
  ⟨rfl, (send_contact_tolerant storePlain msgAnn "e").2.1 rfl⟩

/-- C7: the diagnostic probe always returns a structured status object:
the backend field is the fixed running banner, at most 10 collection
names are reported, and a raising collection listing is rendered as a
degraded status string carrying at most the first 50 characters of the
error text. -/
theorem test_database_never_raises (env : Env) (db : Option Store) (s : Store) (e : String) :
    (test_database env db).backend = "✅ Running" ∧
    (test_database env db).collections.length ≤ 10 ∧
    (s.colNames = .error e →
      (test_database env (some s)).database = "⚠️  Connected but Error: " ++ truncate50 e ∧
      (truncate50 e).length ≤ 50) := by
  refine ⟨?_, ?_, ?_⟩
  · rcases db with _ | s2
    · rfl
    · rcases hcn : s2.colNames with er | cs <;>
        simp only [test_database, hcn]
  · rcases db with _ | s2
    · simp [test_database]
    · rcases hcn : s2.colNames with er | cs <;>
        simp only [test_database, hcn]
      · simp
      · exact List.length_take_le 10 cs
  · intro hcn
    refine ⟨?_, ?_⟩
    · simp only [test_database, hcn]
    · exact List.length_take_le 50 e.data

/-- Witness for C7: a store whose collection listing raises yields the
degraded status string. -/
theorem test_database_never_raises_witness :
    storeListBoom.colNames = .error "explode" ∧
    (test_database (Env.mk none none) (some storeListBoom)).database =
      "⚠️  Connected but Error: " ++ truncate50 "explode" ∧
    (truncate50 "explode").length ≤ 50 :=
  ⟨rfl, (test_database_never_raises (Env.mk none none) (some storeListBoom)
    storeListBoom "explode").2.2 rfl⟩

/-- C8: with a working store, a created testimonial appears in a
subsequent list call (for a limit large enough for the store ordering)
with every submitted field intact, and with rating 5 when the payload
omitted it. -/
theorem testimonial_round_trip (s : Store) (raw : TestimonialIn) (p : Testimonial) (limit : Nat) :
    validateTestimonial raw = .ok p →
    s.insertErr = none →
    s.fetchErr "testimonial" = none →
    (s.contents "testimonial").length < limit →
    ∃ s2, create_testimonial (some s) raw = (.ok ⟨s.nextId, true⟩, some s2) ∧
      ∃ out, get_testimonials (some s2) (some limit) = .ok out ∧
        projTestimonial p.toDoc ∈ out ∧
        projTestimonial p.toDoc =
          ⟨some (.vStr p.name), some (optStr p.procedure), .vInt p.rating,
           some (.vStr p.text), some (optStr p.city)⟩ ∧
        (raw.rating = none → p.rating = 5) := by
  intro hval hins hfe hlen
  refine ⟨{ s with contents := fun c =>
      if c = "testimonial" then s.contents c ++ [p.toDoc] else s.contents c }, ?_, ?_⟩
  · simp only [create_testimonial, Store.createDocument, hval, hins]
  · have htake : (s.contents "testimonial" ++ [p.toDoc]).take limit =
        s.contents "testimonial" ++ [p.toDoc] := by
      refine List.take_of_length_le ?_
      simp only [List.length_append, List.length_cons, List.length_nil]
      omega
    refine ⟨(s.contents "testimonial" ++ [p.toDoc]).map projTestimonial, ?_, ?_, ?_, ?_⟩
    · simp only [get_testimonials, Store.getDocuments, Option.getD, hfe]
      simp [htake]
    · exact List.mem_map_of_mem _ (by simp)
    · rfl
    · intro hr
      rcases hn : raw.name with _ | n
      · simp [validateTestimonial, hn] at hval
      · rcases ht : raw.text with _ | t
        · simp [validateTestimonial, hn, ht] at hval
        · simp only [validateTestimonial, hn, ht, hr, Option.getD] at hval
          rw [if_pos (by norm_num)] at hval
          simp only [Except.ok.injEq] at hval
          subst hval
          rfl

/-- Witness for C8: creating a testimonial into an empty working store
and listing with limit 12 returns it. -/
theorem testimonial_round_trip_witness :
    validateTestimonial rawAnn = .ok pAnn ∧
    storePlain.insertErr = none ∧
    storePlain.fetchErr "testimonial" = none ∧
    (storePlain.contents "testimonial").length < 12 ∧
    (∃ s2, create_testimonial (some storePlain) rawAnn = (.ok ⟨storePlain.nextId, true⟩, some s2) ∧
      ∃ out, get_testimonials (some s2) (some 12) = .ok out ∧
        projTestimonial pAnn.toDoc ∈ out ∧
        projTestimonial pAnn.toDoc =
          ⟨some (.vStr pAnn.name), some (optStr pAnn.procedure), .vInt pAnn.rating,
           some (.vStr pAnn.text), some (optStr pAnn.city)⟩ ∧
        (rawAnn.rating = none → pAnn.rating = 5)) :=
  ⟨rfl, rfl, rfl, by decide,
   testimonial_round_trip storePlain rawAnn pAnn 12 rfl rfl rfl (by decide)⟩

/-- C9: collection names are the lowercased entity class names with no
separators; the read endpoints depend only on their own collection, and
the write endpoints append only to theirs ("testimonial" for
testimonials, "contactmessage" for contact messages, "beforeafter" read
by the before/after listing). -/
theorem collection_naming (s s2 : Store) (raw : TestimonialIn)
    (m : ContactMessage) (limitQ : Option Nat) :
    lowerName "Testimonial" = "testimonial" ∧
    lowerName "ContactMessage" = "contactmessage" ∧
    lowerName "BeforeAfter" = "beforeafter" ∧
    (s.contents "testimonial" = s2.contents "testimonial" →
     s.fetchErr "testimonial" = s2.fetchErr "testimonial" →
      get_testimonials (some s) limitQ = get_testimonials (some s2) limitQ) ∧
    (s.contents "beforeafter" = s2.contents "beforeafter" →
     s.fetchErr "beforeafter" = s2.fetchErr "beforeafter" →
      get_before_after (some s) limitQ = get_before_after (some s2) limitQ) ∧
    (∀ resp s3, create_testimonial (some s) raw = (.ok resp, some s3) →
      (∀ c, c ≠ "testimonial" → s3.contents c = s.contents c) ∧
      ∃ p, validateTestimonial raw = .ok p ∧
        s3.contents "testimonial" = s.contents "testimonial" ++ [p.toDoc]) ∧
    (∀ resp s3, send_contact (some s) m = (.ok resp, some s3) →
      (∀ c, c ≠ "contactmessage" → s3.contents c = s.contents c) ∧
      s3.contents "contactmessage" = s.contents "contactmessage" ++ [m.toDoc]) := by
  refine ⟨by decide, by decide, by decide, ?_, ?_, ?_, ?_⟩
  · intro hc hfe
    simp only [get_testimonials, Store.getDocuments, hfe, hc]
  · intro hc hfe
    simp only [get_before_after, Store.getDocuments, hfe, hc]
  · intro resp s3 hcr
    rcases hval : validateTestimonial raw with er | p
    · simp [create_testimonial, hval] at hcr
    · rcases hins : s.insertErr with _ | err
      · simp only [create_testimonial, Store.createDocument, hval, hins,
          Prod.mk.injEq, Except.ok.injEq, Option.some.injEq] at hcr
        obtain ⟨-, hs3⟩ := hcr
        subst hs3
        refine ⟨fun c hne => ?_, p, rfl, ?_⟩
        · simp only []
          rw [if_neg hne]
        · simp
      · simp [create_testimonial, Store.createDocument, hval, hins] at hcr
  · intro resp s3 hcr
    rcases hins : s.insertErr with _ | err
    · simp only [send_contact, Store.createDocument, hins,
        Prod.mk.injEq, Except.ok.injEq, Option.some.injEq] at hcr
      obtain ⟨-, hs3⟩ := hcr
      subst hs3
      refine ⟨fun c hne => ?_, ?_⟩
      · simp only []
        rw [if_neg hne]
      · simp
    · simp [send_contact, Store.createDocument, hins] at hcr

/-- Witness for C9: two stores that agree on the "testimonial"
collection produce identical testimonial listings even though they
differ elsewhere. -/
theorem collection_naming_witness :
    storePlain.contents "testimonial" = storeListBoom.contents "testimonial" ∧
    storePlain.fetchErr "testimonial" = storeListBoom.fetchErr "testimonial" ∧
    get_testimonials (some storePlain) (some 3) = get_testimonials (some storeListBoom) (some 3) :=
  ⟨rfl, rfl,
   (collection_naming storePlain storeListBoom rawAnn msgAnn (some 3)).2.2.2.1 rfl rfl⟩

end SurgeonBackend
